import Mathlib

/-!
Verification of the Warehouse Guardian fraud-detection logic.

The definitions below are a shallow embedding of the Flink SQL program in
`backend/confluent/flink_sql/01_create_tables.sql`: the three input tables
(`qr_code_scans`, `inventory_physical`, `inventory_digital`) become record
types, each of the five `INSERT INTO fraud_alerts` queries becomes a function
from input record(s) to `Option Alert`, the `threat_scores` aggregation
(Query 6) becomes a function over a tumbling-window group of scan events, and
the upsert-kafka sinks (`PRIMARY KEY ... NOT ENFORCED` with the upsert-kafka
connector) become an explicit replace-by-key table model.

Conventions of the embedding:
- SQL `DOUBLE` columns are modelled as `ℚ`, `BIGINT` timestamps as `ℤ`
  (epoch milliseconds, matching `TO_TIMESTAMP_LTZ(timestamp, 3)`); the
  30-second join interval of Query 2 is therefore 30000 milliseconds.
- `CAST(x AS STRING)` is modelled by the rendering helpers `intStr`/`ratStr`
  (the exact digit format of the SQL cast is irrelevant to every property
  proved here; only equality/inequality of the rendered strings matters).
- SQL `LIKE '%pat%'` is modelled by substring containment (`likeContains`).
- `UNIX_TIMESTAMP()` (wall-clock processing time in seconds) is passed to
  each query function as an explicit argument `now`.
- For `inventory_digital`, the table's event time is
  `TO_TIMESTAMP_LTZ(COALESCE(timestamp, last_updated), 3)`; the embedding's
  `timestamp` field holds that coalesced value (no claim involves a NULL
  `timestamp` column).
-/

/-- String rendering of an integer, modelling SQL `CAST(i AS STRING)`. -/
def intStr (i : ℤ) : String := toString i

/-- String rendering of a rational, modelling SQL `CAST(x AS STRING)` for
`DOUBLE` columns. The digit format differs from the SQL runtime's float
rendering; no property below depends on the format. -/
def ratStr (q : ℚ) : String :=
  toString q.num ++ (if q.den = 1 then "" else "/" ++ toString q.den)

/-- Boolean test that the pattern list is an initial segment of the other
list (structural recursion, used by `charsContain`). -/
def charsPref : List Char → List Char → Bool
  | [], _ => true
  | _ :: _, [] => false
  | p :: ps, c :: cs => p == c && charsPref ps cs

/-- Boolean substring containment on character lists. -/
def charsContain : List Char → List Char → Bool
  | [], pat => pat.isEmpty
  | c :: rest, pat => charsPref pat (c :: rest) || charsContain rest pat

/-- Model of SQL `s LIKE '%pat%'`: `pat` occurs as a substring of `s`. -/
def likeContains (s pat : String) : Prop :=
  charsContain s.data pat.data = true

instance (s pat : String) : Decidable (likeContains s pat) := by
  unfold likeContains
  infer_instance

/-- The `product_info ROW<...>` column of the `qr_code_scans` table. -/
structure ProductInfo where
  product_id : String
  name : String
  category : String
  value : ℚ
  warehouse_location : String
  deriving DecidableEq

/-- One element of the `fraud_indicators ARRAY<ROW<...>>` column. -/
structure FraudIndicator where
  itype : String
  severity : String
  description : String
  deriving DecidableEq

/-- A row of the `qr_code_scans` table (one QR-code verification event). -/
structure ScanEvent where
  event_type : String
  timestamp : ℤ
  qr_id : String
  is_valid : Bool
  threat_level : String
  reason : String
  scan_location : String
  product_info : ProductInfo
  fraud_indicators : List FraudIndicator
  alert : Bool
  deriving DecidableEq

/-- A row of the `inventory_physical` table (weight / RFID / camera event). -/
structure PhysicalSensorEvent where
  event_type : String
  sensor_id : String
  reader_id : String
  camera_id : String
  location : String
  current_weight_kg : ℚ
  previous_weight_kg : ℚ
  delta_kg : ℚ
  anomaly_detected : Bool
  expected_items_count : ℤ
  detected_items_count : ℤ
  product_id : String
  rfid_tag : String
  signal_strength : ℤ
  detection_type : String
  confidence : ℚ
  object_count : ℤ
  alert : Bool
  timestamp : ℤ
  deriving DecidableEq

/-- A row of the `inventory_digital` table (ERP snapshot or transaction). -/
structure DigitalInventoryEvent where
  event_type : String
  product_id : String
  product_name : String
  category : String
  sku : String
  location : String
  quantity_on_hand : ℤ
  quantity_reserved : ℤ
  quantity_available : ℤ
  status : String
  warehouse_id : String
  transaction_id : String
  transaction_type : String
  quantity_change : ℤ
  new_quantity : ℤ
  user_id : String
  notes : String
  timestamp : ℤ
  deriving DecidableEq

/-- A row of the `fraud_alerts` output table. -/
structure Alert where
  alert_id : String
  alert_type : String
  severity : String
  title : String
  description : String
  product_id : String
  product_name : String
  location : String
  evidence : List String
  threat_score : ℚ
  timestamp_detected : ℤ
  requires_action : Bool
  deriving DecidableEq

/-- WHERE clause of Query 1 (`invalid_qr_code`):
`is_valid = FALSE AND alert = TRUE`. -/
def q1Cond (e : ScanEvent) : Prop :=
  e.is_valid = false ∧ e.alert = true

instance (e : ScanEvent) : Decidable (q1Cond e) := by
  unfold q1Cond
  infer_instance

/-- SELECT list of Query 1, transcribed column by column. -/
def q1Alert (now : ℤ) (e : ScanEvent) : Alert :=
  { alert_id := "QR-INVALID-" ++ e.qr_id ++ "-" ++ intStr now
    alert_type := "invalid_qr_code"
    severity :=
      if e.threat_level = "critical" then "critical"
      else if e.threat_level = "high" then "high"
      else "medium"
    title := "Invalid QR Code Detected"
    description :=
      "QR code " ++ e.qr_id ++ " failed verification at " ++ e.scan_location ++
      ". Reason: " ++ e.reason ++ ". Threat level: " ++ e.threat_level
    product_id := e.product_info.product_id
    product_name := e.product_info.name
    location := e.scan_location
    evidence :=
      [ "QR verification failed: " ++ e.reason,
        "Scan location: " ++ e.scan_location,
        "Product value: $" ++ ratStr e.product_info.value,
        "Fraud indicators: " ++ toString e.fraud_indicators.length ]
    threat_score :=
      if e.threat_level = "critical" then 95
      else if e.threat_level = "high" then 80
      else if e.threat_level = "medium" then 60
      else 40
    timestamp_detected := e.timestamp
    requires_action := true }

/-- Query 1 of the fraud-detection job: one candidate alert per qualifying
`qr_code_scans` row. -/
def query1_invalid_qr (now : ℤ) (e : ScanEvent) : Option Alert :=
  if q1Cond e then some (q1Alert now e) else none

/-- Join-ON plus WHERE clause of Query 2 (`inventory_discrepancy`):
same location, event times within 30 seconds of each other, weight-sensor
subtype, anomaly flag, at least 5 items missing, `ABS(delta_kg) > 10.0`. -/
def q2Cond (phys : PhysicalSensorEvent) (dig : DigitalInventoryEvent) : Prop :=
  phys.location = dig.location ∧
  dig.timestamp - 30000 ≤ phys.timestamp ∧
  phys.timestamp ≤ dig.timestamp + 30000 ∧
  phys.event_type = "weight_sensor" ∧
  phys.anomaly_detected = true ∧
  5 ≤ phys.expected_items_count - phys.detected_items_count ∧
  10 < |phys.delta_kg|

instance (phys : PhysicalSensorEvent) (dig : DigitalInventoryEvent) :
    Decidable (q2Cond phys dig) := by
  unfold q2Cond
  infer_instance

/-- SELECT list of Query 2, transcribed column by column. -/
def q2Alert (now : ℤ) (phys : PhysicalSensorEvent)
    (dig : DigitalInventoryEvent) : Alert :=
  { alert_id := "INV-MISMATCH-" ++ phys.sensor_id ++ "-" ++ intStr now
    alert_type := "inventory_discrepancy"
    severity := "critical"
    title := "Physical-Digital Inventory Mismatch Detected"
    description :=
      "CRITICAL: Physical sensors detect " ++
      intStr (phys.expected_items_count - phys.detected_items_count) ++
      " missing items at " ++ phys.location ++
      ", but digital records show normal inventory levels. Possible theft in progress!"
    product_id := dig.product_id
    product_name := dig.product_name
    location := phys.location
    evidence :=
      [ "Physical expected: " ++ intStr phys.expected_items_count ++ " items",
        "Physical detected: " ++ intStr phys.detected_items_count ++ " items",
        "Items missing: " ++
          intStr (phys.expected_items_count - phys.detected_items_count),
        "Weight drop: " ++ ratStr phys.delta_kg ++ " kg",
        "Digital inventory: " ++ intStr dig.quantity_on_hand ++ " units",
        "ATTACK PATTERN: Matches Paris warehouse fraud scenario" ]
    threat_score := 98
    timestamp_detected := phys.timestamp
    requires_action := true }

/-- Query 2 of the fraud-detection job, applied to one (physical, digital)
pair of the 30-second interval join. -/
def query2_inventory_discrepancy (now : ℤ) (phys : PhysicalSensorEvent)
    (dig : DigitalInventoryEvent) : Option Alert :=
  if q2Cond phys dig then some (q2Alert now phys dig) else none

/-- WHERE clause of Query 3 (`suspicious_user`): fraud-marker transaction
type, or compromised/unknown user id, or fraud/suspicious marker in notes. -/
def q3Cond (d : DigitalInventoryEvent) : Prop :=
  d.transaction_type = "fraud_adjust" ∨
  (likeContains d.user_id "COMPROMISED" ∨ likeContains d.user_id "UNKNOWN") ∨
  (likeContains d.notes "FRAUDULENT" ∨ likeContains d.notes "SUSPICIOUS")

instance (d : DigitalInventoryEvent) : Decidable (q3Cond d) := by
  unfold q3Cond
  infer_instance

/-- SELECT list of Query 3, transcribed column by column. -/
def q3Alert (d : DigitalInventoryEvent) : Alert :=
  { alert_id := "USER-FRAUD-" ++ d.transaction_id
    alert_type := "suspicious_user"
    severity := "critical"
    title := "Fraudulent ERP Transaction Detected"
    description :=
      "ALERT: User \"" ++ d.user_id ++ "\" created suspicious transaction marking " ++
      intStr |d.quantity_change| ++ " items as shipped. " ++
      "Transaction notes: " ++ d.notes
    product_id := d.product_id
    product_name := d.product_name
    location := d.warehouse_id
    evidence :=
      [ "Transaction ID: " ++ d.transaction_id,
        "User ID: " ++ d.user_id,
        "Type: " ++ d.transaction_type,
        "Quantity change: " ++ intStr d.quantity_change,
        "Notes: " ++ d.notes ]
    threat_score := 92
    timestamp_detected := d.timestamp
    requires_action := true }

/-- Query 3 of the fraud-detection job. Its alert id contains no processing
timestamp, unlike the other four queries. -/
def query3_suspicious_user (d : DigitalInventoryEvent) : Option Alert :=
  if q3Cond d then some (q3Alert d) else none

/-- WHERE clause of Query 4 (`unauthorized_exit`):
`is_valid = FALSE AND scan_location LIKE '%exit%' AND product_info.value > 500.0`. -/
def q4Cond (e : ScanEvent) : Prop :=
  e.is_valid = false ∧ likeContains e.scan_location "exit" ∧
  500 < e.product_info.value

instance (e : ScanEvent) : Decidable (q4Cond e) := by
  unfold q4Cond
  infer_instance

/-- SELECT list of Query 4, transcribed column by column. -/
def q4Alert (now : ℤ) (e : ScanEvent) : Alert :=
  { alert_id := "EXIT-BLOCK-" ++ e.qr_id ++ "-" ++ intStr now
    alert_type := "unauthorized_exit"
    severity := "critical"
    title := "BLOCK EXIT - Invalid QR Code at Gate"
    description :=
      "IMMEDIATE ACTION REQUIRED: Product \"" ++ e.product_info.name ++
      "\" with invalid QR code detected at exit gate. Value: $" ++
      ratStr e.product_info.value ++ ". Verification failed: " ++ e.reason
    product_id := e.product_info.product_id
    product_name := e.product_info.name
    location := e.scan_location
    evidence :=
      [ "EXIT GATE SCAN FAILED",
        "Product: " ++ e.product_info.name,
        "Value: $" ++ ratStr e.product_info.value,
        "Threat level: " ++ e.threat_level,
        "Failure reason: " ++ e.reason,
        "ACTION: SECURITY ALERT - BLOCK EXIT" ]
    threat_score := 100
    timestamp_detected := e.timestamp
    requires_action := true }

/-- Query 4 of the fraud-detection job. -/
def query4_unauthorized_exit (now : ℤ) (e : ScanEvent) : Option Alert :=
  if q4Cond e then some (q4Alert now e) else none

/-- WHERE clause of Query 5 (`suspicious_activity`): camera subtype,
`detection_type = 'suspicious_activity'`, alert flag, `confidence > 0.7`. -/
def q5Cond (cam : PhysicalSensorEvent) : Prop :=
  cam.event_type = "camera_detection" ∧
  cam.detection_type = "suspicious_activity" ∧
  cam.alert = true ∧
  (7 : ℚ) / 10 < cam.confidence

instance (cam : PhysicalSensorEvent) : Decidable (q5Cond cam) := by
  unfold q5Cond
  infer_instance

/-- SELECT list of Query 5, transcribed column by column. -/
def q5Alert (now : ℤ) (cam : PhysicalSensorEvent) : Alert :=
  { alert_id := "CAM-ALERT-" ++ cam.camera_id ++ "-" ++ intStr now
    alert_type := "suspicious_activity"
    severity := "high"
    title := "Suspicious Activity Detected by Security Camera"
    description :=
      "Camera " ++ cam.camera_id ++ " detected " ++ cam.detection_type ++
      " with " ++ ratStr (cam.confidence * 100) ++ "% confidence at " ++
      cam.location ++ ". " ++ intStr cam.object_count ++ " objects detected."
    product_id := "UNKNOWN"
    product_name := "Multiple Products"
    location := cam.location
    evidence :=
      [ "Camera: " ++ cam.camera_id,
        "Detection: " ++ cam.detection_type,
        "Confidence: " ++ ratStr (cam.confidence * 100) ++ "%",
        "Object count: " ++ intStr cam.object_count,
        "Recommendation: Security review required" ]
    threat_score := cam.confidence * 85
    timestamp_detected := cam.timestamp
    requires_action := true }

/-- Query 5 of the fraud-detection job. -/
def query5_suspicious_activity (now : ℤ) (cam : PhysicalSensorEvent) :
    Option Alert :=
  if q5Cond cam then some (q5Alert now cam) else none

/-- All fraud alerts produced by the five standing `INSERT INTO fraud_alerts`
queries for the given batch of input rows (Query 2 ranges over every
physical/digital pair, as its interval join does). -/
def allAlerts (now : ℤ) (scans : List ScanEvent)
    (phys : List PhysicalSensorEvent) (digs : List DigitalInventoryEvent) :
    List Alert :=
  scans.filterMap (query1_invalid_qr now) ++
  (phys.flatMap fun p => digs.filterMap (query2_inventory_discrepancy now p)) ++
  digs.filterMap query3_suspicious_user ++
  scans.filterMap (query4_unauthorized_exit now) ++
  phys.filterMap (query5_suspicious_activity now)

/-- One write step of the `fraud_alerts` upsert-kafka sink
(`PRIMARY KEY (alert_id) NOT ENFORCED`): a record whose `alert_id` is
already present replaces the stored record; otherwise it is appended. -/
def upsertByKey (table : List Alert) (a : Alert) : List Alert :=
  if table.any fun r => decide (r.alert_id = a.alert_id) then
    table.map fun r => if r.alert_id = a.alert_id then a else r
  else table ++ [a]

/-- Materialized state of the `fraud_alerts` upsert sink after a sequence of
writes, starting from an empty topic. -/
def upsertTable (writes : List Alert) : List Alert :=
  writes.foldl upsertByKey []

/-- A row of the `threat_scores` output table. -/
structure ThreatScoreRow where
  product_id : String
  product_name : String
  location : String
  threat_score : ℚ
  risk_factors : List String
  last_updated : ℤ
  deriving DecidableEq

/-- The per-event score CASE of Query 6 (note: it differs from the alert
score CASE of Query 1 — `low` maps to 30 and the default to 10 here). -/
def threatLevelScore (tl : String) : ℚ :=
  if tl = "critical" then 95
  else if tl = "high" then 80
  else if tl = "medium" then 60
  else if tl = "low" then 30
  else 10

/-- The scan events falling into one GROUP of Query 6: a 5-minute tumbling
window starting at `wstart` (milliseconds) together with the group keys
`product_info.product_id`, `product_info.name`, `scan_location`. -/
def tumbleGroup (scans : List ScanEvent) (wstart : ℤ)
    (pid pname loc : String) : List ScanEvent :=
  scans.filter fun e =>
    decide (wstart ≤ e.timestamp ∧ e.timestamp < wstart + 300000 ∧
      e.product_info.product_id = pid ∧ e.product_info.name = pname ∧
      e.scan_location = loc)

/-- SELECT list of Query 6 applied to one window group: `AVG` of the
threat-level CASE, `COLLECT(DISTINCT reason)`, `MAX(timestamp)`. -/
def query6_row (pid pname loc : String) (group : List ScanEvent) :
    ThreatScoreRow :=
  { product_id := pid
    product_name := pname
    location := loc
    threat_score :=
      (group.map fun e => threatLevelScore e.threat_level).sum / group.length
    risk_factors := (group.map fun e => e.reason).dedup
    last_updated := (group.map fun e => e.timestamp).foldl max 0 }

/-- One write step of the `threat_scores` upsert-kafka sink
(`PRIMARY KEY (product_id) NOT ENFORCED`). -/
def upsertScoreByKey (table : List ThreatScoreRow) (r : ThreatScoreRow) :
    List ThreatScoreRow :=
  if table.any fun s => decide (s.product_id = r.product_id) then
    table.map fun s => if s.product_id = r.product_id then r else s
  else table ++ [r]

/-- Materialized state of the `threat_scores` upsert sink after a sequence
of writes, starting from an empty topic. -/
def upsertScoreTable (writes : List ThreatScoreRow) : List ThreatScoreRow :=
  writes.foldl upsertScoreByKey []

/-- WHERE clause of the `live_threats` view (Query 7):
`timestamp_detected >= UNIX_TIMESTAMP() - 3600 AND requires_action = TRUE`
(`nowSec` models `UNIX_TIMESTAMP()`, wall-clock seconds). -/
def liveThreatCond (nowSec : ℤ) (a : Alert) : Prop :=
  nowSec - 3600 ≤ a.timestamp_detected ∧ a.requires_action = true

instance (nowSec : ℤ) (a : Alert) : Decidable (liveThreatCond nowSec a) := by
  unfold liveThreatCond
  infer_instance

/-- The severity-to-score consistency invariant stated in the spec:
critical ⇔ score ≥ 90, high ⇔ 70 ≤ score < 90, medium ⇔ 50 ≤ score < 70,
low ⇔ score < 50. -/
def severityMatchesScore (a : Alert) : Prop :=
  (a.severity = "critical" ↔ 90 ≤ a.threat_score) ∧
  (a.severity = "high" ↔ 70 ≤ a.threat_score ∧ a.threat_score < 90) ∧
  (a.severity = "medium" ↔ 50 ≤ a.threat_score ∧ a.threat_score < 70) ∧
  (a.severity = "low" ↔ a.threat_score < 50)

instance (a : Alert) : Decidable (severityMatchesScore a) := by
  unfold severityMatchesScore
  infer_instance

/-- Boolean form of `severityMatchesScore`, for closed statements. -/
def severityConsistent (a : Alert) : Bool := decide (severityMatchesScore a)

/-- Modelled from the spec: the ThreatScore aggregate the spec describes,
"a 5-minute tumbling average of per-alert scores" — the average of the
threat scores of the Alerts emitted for a product. The repository's SQL has
no such computation (Query 6 reads `qr_code_scans`, not `fraud_alerts`);
this definition exists only to compare the spec's wording with Query 6. -/
def specAlertAvgScore (alerts : List Alert) : ℚ :=
  (alerts.map fun a => a.threat_score).sum / alerts.length

/-- Projection helper: the threat scores of a list of alerts. -/
def alertScores (l : List Alert) : List ℚ :=
  l.map fun a => a.threat_score

/-- Projection helper: the alert types of a list of alerts. -/
def alertTypes (l : List Alert) : List String :=
  l.map fun a => a.alert_type

/-- Inversion for Query 1: any produced alert is the Query 1 SELECT row. -/
theorem query1_eq_some {now : ℤ} {e : ScanEvent} {a : Alert}
    (h : query1_invalid_qr now e = some a) : q1Cond e ∧ a = q1Alert now e := by
  unfold query1_invalid_qr at h
  split at h
  · exact ⟨by assumption, (Option.some.inj h).symm⟩
  · exact absurd h (by simp)

/-- Inversion for Query 2. -/
theorem query2_eq_some {now : ℤ} {p : PhysicalSensorEvent}
    {d : DigitalInventoryEvent} {a : Alert}
    (h : query2_inventory_discrepancy now p d = some a) :
    q2Cond p d ∧ a = q2Alert now p d := by
  unfold query2_inventory_discrepancy at h
  split at h
  · exact ⟨by assumption, (Option.some.inj h).symm⟩
  · exact absurd h (by simp)

/-- Inversion for Query 3. -/
theorem query3_eq_some {d : DigitalInventoryEvent} {a : Alert}
    (h : query3_suspicious_user d = some a) : q3Cond d ∧ a = q3Alert d := by
  unfold query3_suspicious_user at h
  split at h
  · exact ⟨by assumption, (Option.some.inj h).symm⟩
  · exact absurd h (by simp)

/-- Inversion for Query 4. -/
theorem query4_eq_some {now : ℤ} {e : ScanEvent} {a : Alert}
    (h : query4_unauthorized_exit now e = some a) :
    q4Cond e ∧ a = q4Alert now e := by
  unfold query4_unauthorized_exit at h
  split at h
  · exact ⟨by assumption, (Option.some.inj h).symm⟩
  · exact absurd h (by simp)

/-- Inversion for Query 5. -/
theorem query5_eq_some {now : ℤ} {cam : PhysicalSensorEvent} {a : Alert}
    (h : query5_suspicious_activity now cam = some a) :
    q5Cond cam ∧ a = q5Alert now cam := by
  unfold query5_suspicious_activity at h
  split at h
  · exact ⟨by assumption, (Option.some.inj h).symm⟩
  · exact absurd h (by simp)

/-- Case analysis for membership in the merged alert stream: every emitted
alert comes from one of the five queries. -/
theorem mem_allAlerts {now : ℤ} {scans : List ScanEvent}
    {phys : List PhysicalSensorEvent} {digs : List DigitalInventoryEvent}
    {a : Alert} (h : a ∈ allAlerts now scans phys digs) :
    (∃ e ∈ scans, query1_invalid_qr now e = some a) ∨
    (∃ p ∈ phys, ∃ d ∈ digs, query2_inventory_discrepancy now p d = some a) ∨
    (∃ d ∈ digs, query3_suspicious_user d = some a) ∨
    (∃ e ∈ scans, query4_unauthorized_exit now e = some a) ∨
    (∃ p ∈ phys, query5_suspicious_activity now p = some a) := by
  unfold allAlerts at h
  simp only [List.mem_append, List.mem_filterMap, List.mem_flatMap] at h
  rcases h with ((((⟨e, he, hq⟩ | ⟨p, hp, d, hd, hq⟩) | ⟨d, hd, hq⟩) |
    ⟨e, he, hq⟩) | ⟨p, hp, hq⟩)
  · exact Or.inl ⟨e, he, hq⟩
  · exact Or.inr (Or.inl ⟨p, hp, d, hd, hq⟩)
  · exact Or.inr (Or.inr (Or.inl ⟨d, hd, hq⟩))
  · exact Or.inr (Or.inr (Or.inr (Or.inl ⟨e, he, hq⟩)))
  · exact Or.inr (Or.inr (Or.inr (Or.inr ⟨p, hp, hq⟩)))

/-- Digital-inventory row used for the Query 2 boundary checks. -/
def c8_dig : DigitalInventoryEvent :=
  { event_type := "inventory_snapshot", product_id := "P-100",
    product_name := "Router", category := "electronics", sku := "SKU-1",
    location := "zone_A", quantity_on_hand := 100, quantity_reserved := 0,
    quantity_available := 100, status := "active", warehouse_id := "WH1",
    transaction_id := "", transaction_type := "", quantity_change := 0,
    new_quantity := 100, user_id := "system", notes := "", timestamp := 10000 }

/-- Weight-sensor row just below both Query 2 thresholds:
4 items missing and a 9.9 kg drop. -/
def c8_phys_low : PhysicalSensorEvent :=
  { event_type := "weight_sensor", sensor_id := "WS-1", reader_id := "",
    camera_id := "", location := "zone_A", current_weight_kg := 90.1,
    previous_weight_kg := 100, delta_kg := -9.9, anomaly_detected := true,
    expected_items_count := 104, detected_items_count := 100,
    product_id := "P-100", rfid_tag := "", signal_strength := 0,
    detection_type := "", confidence := 0, object_count := 0, alert := true,
    timestamp := 12000 }

/-- Weight-sensor row just above both Query 2 thresholds:
5 items missing and a 10.1 kg drop. -/
def c8_phys_hi : PhysicalSensorEvent :=
  { event_type := "weight_sensor", sensor_id := "WS-1", reader_id := "",
    camera_id := "", location := "zone_A", current_weight_kg := 89.9,
    previous_weight_kg := 100, delta_kg := -10.1, anomaly_detected := true,
    expected_items_count := 105, detected_items_count := 100,
    product_id := "P-100", rfid_tag := "", signal_strength := 0,
    detection_type := "", confidence := 0, object_count := 0, alert := true,
    timestamp := 12000 }

/-- Helper for the C8 witness: the 10.1 kg drop clears the 10 kg bar. -/
theorem c8_hi_delta : (10 : ℚ) < |c8_phys_hi.delta_kg| := by
  show (10 : ℚ) < |(-10.1 : ℚ)|
  rw [abs_neg, abs_of_nonneg (by norm_num : (0 : ℚ) ≤ 10.1)]
  norm_num

/-- Helper for the C8 witness: the full Query 2 condition at the edge pair. -/
theorem c8_hi_cond : q2Cond c8_phys_hi c8_dig :=
  ⟨rfl, by decide, by decide, rfl, rfl, by decide, c8_hi_delta⟩

/-- C8 — for a physical and a digital event at the same location within
±30 seconds, the Physical/Digital Mismatch rule (Query 2) fires if and only
if the physical event is a weight-sensor reading with the anomaly flag set,
(expected − detected) ≥ 5, and |weight delta| > 10 kg, emitting severity
critical with score 98; the pair with 4 items missing and |delta| = 9.9 kg
does not fire, and the pair with 5 items missing and |delta| = 10.1 kg
fires. -/
theorem C8_mismatch_rule :
    (∀ (now : ℤ) (p : PhysicalSensorEvent) (d : DigitalInventoryEvent),
      p.location = d.location →
      d.timestamp - 30000 ≤ p.timestamp →
      p.timestamp ≤ d.timestamp + 30000 →
      (((query2_inventory_discrepancy now p d).isSome = true) ↔
        (p.event_type = "weight_sensor" ∧ p.anomaly_detected = true ∧
         5 ≤ p.expected_items_count - p.detected_items_count ∧
         10 < |p.delta_kg|)) ∧
      (∀ a, query2_inventory_discrepancy now p d = some a →
        a.alert_type = "inventory_discrepancy" ∧ a.severity = "critical" ∧
        a.threat_score = 98)) ∧
    query2_inventory_discrepancy 0 c8_phys_low c8_dig = none ∧
    (query2_inventory_discrepancy 0 c8_phys_hi c8_dig).isSome = true := by
  refine ⟨fun now p d h1 h2 h3 => ⟨⟨?_, ?_⟩, ?_⟩, ?_, ?_⟩
  · intro hs
    unfold query2_inventory_discrepancy at hs
    split at hs
    · rename_i hc
      exact ⟨hc.2.2.2.1, hc.2.2.2.2.1, hc.2.2.2.2.2.1, hc.2.2.2.2.2.2⟩
    · simp at hs
  · rintro ⟨h4, h5, h6, h7⟩
    unfold query2_inventory_discrepancy
    rw [if_pos ⟨h1, h2, h3, h4, h5, h6, h7⟩]
    rfl
  · intro a ha
    obtain ⟨-, rfl⟩ := query2_eq_some ha
    exact ⟨rfl, rfl, rfl⟩
  · unfold query2_inventory_discrepancy
    refine if_neg fun hc => ?_
    exact absurd hc.2.2.2.2.2.1 (by decide)
  · unfold query2_inventory_discrepancy
    rw [if_pos c8_hi_cond]
    rfl

/-- Witness for C8: the rule fires at the 5-item / 10.1 kg pair and its
alert carries severity critical and score 98. -/
theorem C8_witness :
    (query2_inventory_discrepancy 3 c8_phys_hi c8_dig).isSome = true ∧
    (q2Alert 3 c8_phys_hi c8_dig).severity = "critical" ∧
    (q2Alert 3 c8_phys_hi c8_dig).threat_score = 98 := by
  refine ⟨?_, ?_⟩
  · exact (C8_mismatch_rule.1 3 c8_phys_hi c8_dig rfl (by decide)
      (by decide)).1.mpr ⟨rfl, rfl, by decide, c8_hi_delta⟩
  · have h := (C8_mismatch_rule.1 3 c8_phys_hi c8_dig rfl (by decide)
      (by decide)).2 (q2Alert 3 c8_phys_hi c8_dig)
      (by unfold query2_inventory_discrepancy; exact if_pos c8_hi_cond)
    exact ⟨h.2.1, h.2.2⟩

/-- Scan event that is invalid but carries `alert = false`: Query 1 does not
fire on it, refuting "no other precondition". -/
def c2_noalert : ScanEvent :=
  { event_type := "qr_scan", timestamp := 5000, qr_id := "QR-7",
    is_valid := false, threat_level := "high", reason := "checksum mismatch",
    scan_location := "aisle_4",
    product_info := { product_id := "P-7", name := "Drill",
                      category := "tools", value := 120,
                      warehouse_location := "WH1" },
    fraud_indicators := [], alert := false }

/-- C2 counterexample — a ScanEvent with validity=false on which the
Invalid QR rule (Query 1) does not fire at all, because the query's WHERE
clause additionally demands `alert = TRUE`. -/
theorem C2_counterexample :
    c2_noalert.is_valid = false ∧ query1_invalid_qr 0 c2_noalert = none := by
  constructor
  · rfl
  · unfold query1_invalid_qr
    exact if_neg fun hc => absurd hc.2 (by decide)

/-- C2 amended — the Invalid QR rule fires exactly once for every ScanEvent
with validity=false whose alert flag is also true, and the severity/score
mapping sends critical to (critical, 95), high to (high, 80), medium to
(medium, 60), and every other threat level to severity medium (not low)
with score 40. -/
theorem C2_invalid_qr_amended :
    ∀ (now : ℤ) (e : ScanEvent),
      (((query1_invalid_qr now e).isSome = true) ↔
        (e.is_valid = false ∧ e.alert = true)) ∧
      (∀ a, query1_invalid_qr now e = some a →
        (e.threat_level = "critical" →
           a.severity = "critical" ∧ a.threat_score = 95) ∧
        (e.threat_level = "high" →
           a.severity = "high" ∧ a.threat_score = 80) ∧
        (e.threat_level = "medium" →
           a.severity = "medium" ∧ a.threat_score = 60) ∧
        (e.threat_level ≠ "critical" → e.threat_level ≠ "high" →
         e.threat_level ≠ "medium" →
           a.severity = "medium" ∧ a.threat_score = 40)) := by
  intro now e
  constructor
  · constructor
    · intro hs
      unfold query1_invalid_qr at hs
      split at hs
      · rename_i hc
        exact hc
      · simp at hs
    · intro hc
      unfold query1_invalid_qr
      rw [if_pos (show q1Cond e from hc)]
      rfl
  · intro a ha
    obtain ⟨-, rfl⟩ := query1_eq_some ha
    refine ⟨fun h => ?_, fun h => ?_, fun h => ?_, fun h1 h2 h3 => ?_⟩
    · constructor <;> simp [q1Alert, h]
    · constructor <;> simp [q1Alert, h]
    · constructor <;> simp [q1Alert, h]
    · constructor <;> simp [q1Alert, h1, h2, h3]

/-- Scan event with an unrecognized threat level, invalid and flagged. -/
def c2_witness_event : ScanEvent :=
  { event_type := "qr_scan", timestamp := 6000, qr_id := "QR-8",
    is_valid := false, threat_level := "none", reason := "expired signature",
    scan_location := "aisle_5",
    product_info := { product_id := "P-8", name := "Saw",
                      category := "tools", value := 60,
                      warehouse_location := "WH1" },
    fraud_indicators := [], alert := true }

/-- Witness for the amended C2: an invalid, alert-flagged scan with an
unlisted threat level fires and lands in the (medium, 40) bucket. -/
theorem C2_witness :
    (query1_invalid_qr 3 c2_witness_event).isSome = true ∧
    (q1Alert 3 c2_witness_event).severity = "medium" ∧
    (q1Alert 3 c2_witness_event).threat_score = 40 := by
  refine ⟨(C2_invalid_qr_amended 3 c2_witness_event).1.mpr ⟨rfl, rfl⟩, ?_⟩
  exact ((C2_invalid_qr_amended 3 c2_witness_event).2 (q1Alert 3 c2_witness_event)
    (by unfold query1_invalid_qr; exact if_pos ⟨rfl, rfl⟩)).2.2.2
    (by decide) (by decide) (by decide)

/-- Camera event with high confidence and the alert flag set, but with a
detection type other than `suspicious_activity`. -/
def c9_otherdetect : PhysicalSensorEvent :=
  { event_type := "camera_detection", sensor_id := "", reader_id := "",
    camera_id := "CAM-2", location := "zone_B", current_weight_kg := 0,
    previous_weight_kg := 0, delta_kg := 0, anomaly_detected := false,
    expected_items_count := 0, detected_items_count := 0, product_id := "",
    rfid_tag := "", signal_strength := 0,
    detection_type := "person_detected", confidence := 1, object_count := 2,
    alert := true, timestamp := 8000 }

/-- C9 counterexample — a camera event with confidence > 0.7 and the alert
flag set on which Query 5 does not fire, because the query additionally
requires `detection_type = 'suspicious_activity'`. -/
theorem C9_counterexample :
    c9_otherdetect.event_type = "camera_detection" ∧
    c9_otherdetect.alert = true ∧
    (7 : ℚ) / 10 < c9_otherdetect.confidence ∧
    query5_suspicious_activity 0 c9_otherdetect = none := by
  refine ⟨rfl, rfl, by norm_num [c9_otherdetect], ?_⟩
  unfold query5_suspicious_activity
  exact if_neg fun hc => absurd hc.2.1 (by decide)

/-- C9 amended — the Suspicious Camera rule fires exactly for camera-subtype
events with `detection_type = 'suspicious_activity'`, the alert flag set,
and confidence > 0.7, emitting severity high and score confidence × 85. -/
theorem C9_camera_rule_amended :
    ∀ (now : ℤ) (cam : PhysicalSensorEvent),
      (((query5_suspicious_activity now cam).isSome = true) ↔
        (cam.event_type = "camera_detection" ∧
         cam.detection_type = "suspicious_activity" ∧
         cam.alert = true ∧ (7 : ℚ) / 10 < cam.confidence)) ∧
      (∀ a, query5_suspicious_activity now cam = some a →
        a.alert_type = "suspicious_activity" ∧ a.severity = "high" ∧
        a.threat_score = cam.confidence * 85) := by
  intro now cam
  constructor
  · constructor
    · intro hs
      unfold query5_suspicious_activity at hs
      split at hs
      · rename_i hc
        exact hc
      · simp at hs
    · intro hc
      unfold query5_suspicious_activity
      rw [if_pos (show q5Cond cam from hc)]
      rfl
  · intro a ha
    obtain ⟨-, rfl⟩ := query5_eq_some ha
    exact ⟨rfl, rfl, rfl⟩

/-- Camera event satisfying all four Query 5 conditions. -/
def c9_witness_event : PhysicalSensorEvent :=
  { event_type := "camera_detection", sensor_id := "", reader_id := "",
    camera_id := "CAM-3", location := "zone_C", current_weight_kg := 0,
    previous_weight_kg := 0, delta_kg := 0, anomaly_detected := false,
    expected_items_count := 0, detected_items_count := 0, product_id := "",
    rfid_tag := "", signal_strength := 0,
    detection_type := "suspicious_activity", confidence := 1,
    object_count := 3, alert := true, timestamp := 9000 }

/-- Helper for the C9 witness: full confidence clears the 0.7 bar. -/
theorem c9_witness_conf : (7 : ℚ) / 10 < c9_witness_event.confidence := by
  norm_num [c9_witness_event]

/-- Witness for the amended C9: the fully-qualifying camera event fires and
its alert carries severity high and score confidence × 85. -/
theorem C9_witness :
    (query5_suspicious_activity 4 c9_witness_event).isSome = true ∧
    (q5Alert 4 c9_witness_event).severity = "high" ∧
    (q5Alert 4 c9_witness_event).threat_score =
      c9_witness_event.confidence * 85 := by
  refine ⟨(C9_camera_rule_amended 4 c9_witness_event).1.mpr
    ⟨rfl, rfl, rfl, c9_witness_conf⟩, ?_⟩
  have h := (C9_camera_rule_amended 4 c9_witness_event).2
    (q5Alert 4 c9_witness_event)
    (by unfold query5_suspicious_activity
        exact if_pos ⟨rfl, rfl, rfl, c9_witness_conf⟩)
  exact ⟨h.2.1, h.2.2⟩

/-- Invalid, alert-flagged scan whose threat level is `low`: Query 1 gives
it severity `medium` but score 40, breaking the severity/score buckets. -/
def c1_lowscan : ScanEvent :=
  { event_type := "qr_scan", timestamp := 5000, qr_id := "QR-9",
    is_valid := false, threat_level := "low", reason := "worn label",
    scan_location := "aisle_1",
    product_info := { product_id := "P-9", name := "Tape",
                      category := "supplies", value := 5,
                      warehouse_location := "WH1" },
    fraud_indicators := [], alert := true }

/-- C1 counterexample — Query 1 emits an alert whose severity bucket does
not match its score: threat level `low` yields severity `medium` (the CASE
default) with score 40, but 40 < 50 demands severity `low`. -/
theorem C1_counterexample :
    (query1_invalid_qr 0 c1_lowscan).map severityConsistent = some false := by
  decide

/-- Bucket lemma: severity `critical` with score ≥ 90 is consistent. -/
theorem sms_critical {a : Alert} (hs : a.severity = "critical")
    (h90 : 90 ≤ a.threat_score) : severityMatchesScore a := by
  unfold severityMatchesScore
  rw [hs]
  refine ⟨⟨fun _ => h90, fun _ => rfl⟩,
    ⟨fun h => absurd h (by decide), fun h => absurd h.2 (by linarith)⟩,
    ⟨fun h => absurd h (by decide), fun h => absurd h.2 (by linarith)⟩,
    ⟨fun h => absurd h (by decide), fun h => absurd h (by linarith)⟩⟩

/-- Bucket lemma: severity `high` with score in [70, 90) is consistent. -/
theorem sms_high {a : Alert} (hs : a.severity = "high")
    (h70 : 70 ≤ a.threat_score) (h90 : a.threat_score < 90) :
    severityMatchesScore a := by
  unfold severityMatchesScore
  rw [hs]
  refine ⟨⟨fun h => absurd h (by decide), fun h => absurd h (by linarith)⟩,
    ⟨fun _ => ⟨h70, h90⟩, fun _ => rfl⟩,
    ⟨fun h => absurd h (by decide), fun h => absurd h.2 (by linarith)⟩,
    ⟨fun h => absurd h (by decide), fun h => absurd h (by linarith)⟩⟩

/-- Bucket lemma: severity `medium` with score in [50, 70) is consistent. -/
theorem sms_medium {a : Alert} (hs : a.severity = "medium")
    (h50 : 50 ≤ a.threat_score) (h70 : a.threat_score < 70) :
    severityMatchesScore a := by
  unfold severityMatchesScore
  rw [hs]
  refine ⟨⟨fun h => absurd h (by decide), fun h => absurd h (by linarith)⟩,
    ⟨fun h => absurd h (by decide), fun h => absurd h.1 (by linarith)⟩,
    ⟨fun _ => ⟨h50, h70⟩, fun _ => rfl⟩,
    ⟨fun h => absurd h (by decide), fun h => absurd h (by linarith)⟩⟩

/-- C1 amended — the severity/score consistency invariant holds for every
alert of Queries 2, 3 and 4, for Query 1 alerts whose threat level is
critical, high or medium, and for Query 5 alerts exactly when
confidence × 85 lies in [70, 90); it fails for Query 1's default branch
(severity medium, score 40) and for Query 5 outside that confidence band. -/
theorem C1_severity_amended :
    (∀ (now : ℤ) (p : PhysicalSensorEvent) (d : DigitalInventoryEvent)
       (a : Alert), query2_inventory_discrepancy now p d = some a →
       severityMatchesScore a) ∧
    (∀ (d : DigitalInventoryEvent) (a : Alert),
       query3_suspicious_user d = some a → severityMatchesScore a) ∧
    (∀ (now : ℤ) (e : ScanEvent) (a : Alert),
       query4_unauthorized_exit now e = some a → severityMatchesScore a) ∧
    (∀ (now : ℤ) (e : ScanEvent) (a : Alert),
       query1_invalid_qr now e = some a →
       (e.threat_level = "critical" ∨ e.threat_level = "high" ∨
        e.threat_level = "medium") → severityMatchesScore a) ∧
    (∀ (now : ℤ) (cam : PhysicalSensorEvent) (a : Alert),
       query5_suspicious_activity now cam = some a →
       70 ≤ cam.confidence * 85 → cam.confidence * 85 < 90 →
       severityMatchesScore a) := by
  refine ⟨?_, ?_, ?_, ?_, ?_⟩
  · intro now p d a ha
    obtain ⟨-, rfl⟩ := query2_eq_some ha
    exact sms_critical rfl (show (90 : ℚ) ≤ 98 by norm_num)
  · intro d a ha
    obtain ⟨-, rfl⟩ := query3_eq_some ha
    exact sms_critical rfl (show (90 : ℚ) ≤ 92 by norm_num)
  · intro now e a ha
    obtain ⟨-, rfl⟩ := query4_eq_some ha
    exact sms_critical rfl (show (90 : ℚ) ≤ 100 by norm_num)
  · intro now e a ha hl
    obtain ⟨-, rfl⟩ := query1_eq_some ha
    rcases hl with h | h | h
    · exact sms_critical (by simp [q1Alert, h])
        (by simp [q1Alert, h]; norm_num)
    · exact sms_high (by simp [q1Alert, h])
        (by simp [q1Alert, h]; norm_num)
        (by simp [q1Alert, h]; norm_num)
    · exact sms_medium (by simp [q1Alert, h])
        (by simp [q1Alert, h]; norm_num)
        (by simp [q1Alert, h]; norm_num)
  · intro now cam a ha h70 h90
    obtain ⟨-, rfl⟩ := query5_eq_some ha
    exact sms_high rfl h70 h90

/-- Weight-sensor row firing Query 2 with integer-valued readings. -/
def c1_phys : PhysicalSensorEvent :=
  { event_type := "weight_sensor", sensor_id := "WS-2", reader_id := "",
    camera_id := "", location := "zone_D", current_weight_kg := 58,
    previous_weight_kg := 100, delta_kg := -42, anomaly_detected := true,
    expected_items_count := 100, detected_items_count := 70,
    product_id := "P-20", rfid_tag := "", signal_strength := 0,
    detection_type := "", confidence := 0, object_count := 0, alert := true,
    timestamp := 20000 }

/-- Digital-inventory row matching `c1_phys` in location and time. -/
def c1_dig : DigitalInventoryEvent :=
  { event_type := "inventory_snapshot", product_id := "P-20",
    product_name := "Camera", category := "electronics", sku := "SKU-2",
    location := "zone_D", quantity_on_hand := 100, quantity_reserved := 0,
    quantity_available := 100, status := "active", warehouse_id := "WH1",
    transaction_id := "", transaction_type := "", quantity_change := 0,
    new_quantity := 100, user_id := "system", notes := "", timestamp := 21000 }

/-- Witness for the amended C1: a Query 2 alert satisfies the invariant. -/
theorem C1_witness : severityMatchesScore (q2Alert 5 c1_phys c1_dig) :=
  C1_severity_amended.1 5 c1_phys c1_dig (q2Alert 5 c1_phys c1_dig)
    (by unfold query2_inventory_discrepancy
        exact if_pos (by decide))

/-- C10 — every alert produced by the five detection queries carries
`requires_action = TRUE`, so any such alert whose detection timestamp lies
within the trailing hour satisfies the full WHERE clause of the
`live_threats` view. -/
theorem C10_requires_action :
    ∀ (now : ℤ) (scans : List ScanEvent) (phys : List PhysicalSensorEvent)
      (digs : List DigitalInventoryEvent) (a : Alert),
      a ∈ allAlerts now scans phys digs →
      a.requires_action = true ∧
      (∀ nowSec : ℤ, nowSec - 3600 ≤ a.timestamp_detected →
        liveThreatCond nowSec a) := by
  intro now scans phys digs a ha
  have hreq : a.requires_action = true := by
    rcases mem_allAlerts ha with ⟨e, -, hq⟩ | ⟨p, -, d, -, hq⟩ | ⟨d, -, hq⟩ |
      ⟨e, -, hq⟩ | ⟨p, -, hq⟩
    · obtain ⟨-, rfl⟩ := query1_eq_some hq
      rfl
    · obtain ⟨-, rfl⟩ := query2_eq_some hq
      rfl
    · obtain ⟨-, rfl⟩ := query3_eq_some hq
      rfl
    · obtain ⟨-, rfl⟩ := query4_eq_some hq
      rfl
    · obtain ⟨-, rfl⟩ := query5_eq_some hq
      rfl
  exact ⟨hreq, fun nowSec hts => ⟨hts, hreq⟩⟩

/-- Invalid scan at an exit gate with a high-value product and the alert
flag off: exactly Query 4 fires on it. -/
def c10_exitscan : ScanEvent :=
  { event_type := "qr_scan", timestamp := 50000, qr_id := "QR-10",
    is_valid := false, threat_level := "critical", reason := "forged code",
    scan_location := "exit_gate_B",
    product_info := { product_id := "P-10", name := "Projector",
                      category := "electronics", value := 900,
                      warehouse_location := "WH1" },
    fraud_indicators := [], alert := false }

/-- Witness for C10: the Query 4 alert for `c10_exitscan` requires action
and passes the live view's filter at a wall clock inside the hour. -/
theorem C10_witness :
    (q4Alert 0 c10_exitscan).requires_action = true ∧
    liveThreatCond 100 (q4Alert 0 c10_exitscan) := by
  have h := C10_requires_action 0 [c10_exitscan] [] [] (q4Alert 0 c10_exitscan)
    (by decide)
  exact ⟨h.1, h.2 100 (by decide)⟩

/-- The reference Scenario A event with the alert flag set: both Query 1
and Query 4 fire on it, so two alerts are emitted, not one. -/
def c3_flagged : ScanEvent :=
  { event_type := "qr_scan", timestamp := 40000, qr_id := "QR-11",
    is_valid := false, threat_level := "critical", reason := "invalid signature",
    scan_location := "exit_gate_A",
    product_info := { product_id := "P-11", name := "Laptop",
                      category := "electronics", value := 1299,
                      warehouse_location := "WH1" },
    fraud_indicators := [], alert := true }

/-- C3 counterexample — for the reference ScanEvent (valid=false,
threat_level=critical, location exit_gate_A, value 1299) with the alert
flag true, the engine emits two Alerts (Query 1's invalid_qr_code plus
Query 4's unauthorized_exit), not exactly one. -/
theorem C3_counterexample :
    c3_flagged.is_valid = false ∧ c3_flagged.threat_level = "critical" ∧
    c3_flagged.scan_location = "exit_gate_A" ∧
    c3_flagged.product_info.value = 1299 ∧
    (allAlerts 0 [c3_flagged] [] []).length = 2 := by
  refine ⟨rfl, rfl, rfl, rfl, ?_⟩
  decide

/-- C3 amended — the Unauthorized Exit rule (Query 4) fires exactly for
invalid ScanEvents whose scan location contains "exit" and whose product
value strictly exceeds 500, always emitting type unauthorized_exit with
severity critical and score 100; for the reference event the
unauthorized_exit Alert is the only Alert precisely when the event's alert
flag is false (when it is true, Query 1 adds a second Alert). -/
theorem C3_exit_rule_amended :
    (∀ (now : ℤ) (e : ScanEvent),
      (((query4_unauthorized_exit now e).isSome = true) ↔
        (e.is_valid = false ∧ likeContains e.scan_location "exit" ∧
         500 < e.product_info.value)) ∧
      (∀ a, query4_unauthorized_exit now e = some a →
        a.alert_type = "unauthorized_exit" ∧ a.severity = "critical" ∧
        a.threat_score = 100)) ∧
    (∀ (now : ℤ) (e : ScanEvent),
      e.is_valid = false → e.scan_location = "exit_gate_A" →
      e.product_info.value = 1299 → e.alert = false →
      alertTypes (allAlerts now [e] [] []) = ["unauthorized_exit"] ∧
      alertScores (allAlerts now [e] [] []) = [100]) := by
  constructor
  · intro now e
    constructor
    · constructor
      · intro hs
        unfold query4_unauthorized_exit at hs
        split at hs
        · rename_i hc
          exact hc
        · simp at hs
      · intro hc
        unfold query4_unauthorized_exit
        rw [if_pos (show q4Cond e from hc)]
        rfl
    · intro a ha
      obtain ⟨-, rfl⟩ := query4_eq_some ha
      exact ⟨rfl, rfl, rfl⟩
  · intro now e h1 h2 h3 h4
    have hq1 : query1_invalid_qr now e = none := by
      unfold query1_invalid_qr
      exact if_neg fun hc => absurd (h4.symm.trans hc.2) (by decide)
    have hq4 : query4_unauthorized_exit now e = some (q4Alert now e) := by
      unfold query4_unauthorized_exit
      refine if_pos ⟨h1, ?_, ?_⟩
      · rw [h2]
        decide
      · rw [h3]
        decide
    simp [allAlerts, hq1, hq4, alertTypes, alertScores, q4Alert]

/-- The reference Scenario A event with the alert flag off. -/
def c3_unflagged : ScanEvent :=
  { event_type := "qr_scan", timestamp := 41000, qr_id := "QR-12",
    is_valid := false, threat_level := "critical", reason := "invalid signature",
    scan_location := "exit_gate_A",
    product_info := { product_id := "P-12", name := "Laptop",
                      category := "electronics", value := 1299,
                      warehouse_location := "WH1" },
    fraud_indicators := [], alert := false }

/-- Witness for the amended C3: with the alert flag off, the reference
event yields exactly one alert, the (unauthorized_exit, 100) one. -/
theorem C3_witness :
    alertTypes (allAlerts 2 [c3_unflagged] [] []) = ["unauthorized_exit"] ∧
    alertScores (allAlerts 2 [c3_unflagged] [] []) = [100] :=
  C3_exit_rule_amended.2 2 c3_unflagged rfl rfl rfl rfl

/-- Strings whose first characters differ are different. -/
theorem ne_of_head_ne {a b : String} (c1 c2 : Char)
    (h1 : a.data.head? = some c1) (h2 : b.data.head? = some c2)
    (hc : c1 ≠ c2) : a ≠ b := by
  intro h
  rw [h] at h1
  exact hc (Option.some.inj (h1.symm.trans h2))

/-- Query 2 and Query 5 alert ids never coincide: one starts with `I`,
the other with `C`. -/
theorem q2_q5_ids_differ (n1 n2 : ℤ) (p cam : PhysicalSensorEvent)
    (d : DigitalInventoryEvent) :
    (q2Alert n1 p d).alert_id ≠ (q5Alert n2 cam).alert_id :=
  ne_of_head_ne 'I' 'C' rfl rfl (by decide)

/-- Replay of a write with the same alert id replaces the stored record. -/
theorem upsert_two_same (a b : Alert) (h : a.alert_id = b.alert_id) :
    upsertTable [a, b] = [b] := by
  simp [upsertTable, upsertByKey, h]

/-- Writes with distinct alert ids are both retained by the upsert sink. -/
theorem upsert_two_distinct (a b : Alert) (h : a.alert_id ≠ b.alert_id) :
    upsertTable [a, b] = [a, b] := by
  simp [upsertTable, upsertByKey, h]

/-- Weight-sensor row for the dedup scenario (fires Query 2, score 98). -/
def c4_phys : PhysicalSensorEvent :=
  { event_type := "weight_sensor", sensor_id := "WS-4", reader_id := "",
    camera_id := "", location := "zone_E", current_weight_kg := 58,
    previous_weight_kg := 100, delta_kg := -42, anomaly_detected := true,
    expected_items_count := 100, detected_items_count := 70,
    product_id := "P-30", rfid_tag := "", signal_strength := 0,
    detection_type := "", confidence := 0, object_count := 0, alert := true,
    timestamp := 30000 }

/-- Camera row for the dedup scenario (fires Query 5 at confidence 1,
score 85), same location and window as `c4_phys`. -/
def c4_cam : PhysicalSensorEvent :=
  { event_type := "camera_detection", sensor_id := "", reader_id := "",
    camera_id := "CAM-4", location := "zone_E", current_weight_kg := 0,
    previous_weight_kg := 0, delta_kg := 0, anomaly_detected := false,
    expected_items_count := 0, detected_items_count := 0, product_id := "",
    rfid_tag := "", signal_strength := 0,
    detection_type := "suspicious_activity", confidence := 1,
    object_count := 2, alert := true, timestamp := 30001 }

/-- Digital-inventory row matching `c4_phys` for the dedup scenario. -/
def c4_dig : DigitalInventoryEvent :=
  { event_type := "inventory_snapshot", product_id := "P-30",
    product_name := "Monitor", category := "electronics", sku := "SKU-4",
    location := "zone_E", quantity_on_hand := 100, quantity_reserved := 0,
    quantity_available := 100, status := "active", warehouse_id := "WH1",
    transaction_id := "", transaction_type := "", quantity_change := 0,
    new_quantity := 100, user_id := "system", notes := "", timestamp := 30000 }

/-- Helper for C4: the camera row clears the 0.7 confidence bar. -/
theorem c4_cam_conf : (7 : ℚ) / 10 < c4_cam.confidence := by
  norm_num [c4_cam]

/-- C4 counterexample — when the mismatch rule (98) and the camera rule
(85) both fire within the same window, the engine emits two Alerts with
scores 98 and 85; there is no aggregator that keeps only the higher-score
alert or merges evidence. -/
theorem C4_counterexample :
    alertScores (allAlerts 0 [] [c4_phys, c4_cam] [c4_dig]) = [98, 85] ∧
    (allAlerts 0 [] [c4_phys, c4_cam] [c4_dig]).length = 2 := by
  have e1 : query2_inventory_discrepancy 0 c4_phys c4_dig =
      some (q2Alert 0 c4_phys c4_dig) := by
    unfold query2_inventory_discrepancy
    exact if_pos (by decide)
  have e2 : query2_inventory_discrepancy 0 c4_cam c4_dig = none := by
    unfold query2_inventory_discrepancy
    exact if_neg fun hc => absurd hc.2.2.2.1 (by decide)
  have e3 : query3_suspicious_user c4_dig = none := by
    unfold query3_suspicious_user
    exact if_neg (by decide)
  have e5p : query5_suspicious_activity 0 c4_phys = none := by
    unfold query5_suspicious_activity
    exact if_neg fun hc => absurd hc.1 (by decide)
  have e5c : query5_suspicious_activity 0 c4_cam = some (q5Alert 0 c4_cam) := by
    unfold query5_suspicious_activity
    exact if_pos ⟨rfl, rfl, rfl, c4_cam_conf⟩
  constructor
  · simp [allAlerts, e1, e2, e3, e5p, e5c, alertScores, q2Alert, q5Alert]
    norm_num [c4_cam]
  · simp [allAlerts, e1, e2, e3, e5p, e5c]

/-- C4 amended — two rules firing for the same product within the window
produce two separate Alerts (scores 98 and confidence × 85) with distinct
alert ids, each keeping its own evidence; the upsert sink retains both, and
no deduplication or evidence merging takes place. -/
theorem C4_no_dedup_amended :
    ∀ (now : ℤ) (p cam : PhysicalSensorEvent) (d : DigitalInventoryEvent),
      q2Cond p d → q5Cond cam → ¬ q3Cond d →
      allAlerts now [] [p, cam] [d] = [q2Alert now p d, q5Alert now cam] ∧
      (q2Alert now p d).threat_score = 98 ∧
      (q5Alert now cam).threat_score = cam.confidence * 85 ∧
      (q2Alert now p d).alert_id ≠ (q5Alert now cam).alert_id ∧
      upsertTable [q2Alert now p d, q5Alert now cam] =
        [q2Alert now p d, q5Alert now cam] := by
  intro now p cam d h2 h5 h3
  have hq2 : query2_inventory_discrepancy now p d = some (q2Alert now p d) := by
    unfold query2_inventory_discrepancy
    exact if_pos h2
  have hcam2 : query2_inventory_discrepancy now cam d = none := by
    unfold query2_inventory_discrepancy
    exact if_neg fun hc => absurd (h5.1.symm.trans hc.2.2.2.1) (by decide)
  have hq3 : query3_suspicious_user d = none := by
    unfold query3_suspicious_user
    exact if_neg h3
  have hp5 : query5_suspicious_activity now p = none := by
    unfold query5_suspicious_activity
    exact if_neg fun hc => absurd (h2.2.2.2.1.symm.trans hc.1) (by decide)
  have hc5 : query5_suspicious_activity now cam = some (q5Alert now cam) := by
    unfold query5_suspicious_activity
    exact if_pos h5
  refine ⟨?_, rfl, rfl, q2_q5_ids_differ now now p cam d, ?_⟩
  · simp [allAlerts, hq2, hcam2, hq3, hp5, hc5]
  · exact upsert_two_distinct _ _ (q2_q5_ids_differ now now p cam d)

/-- Witness for the amended C4: the concrete dedup-scenario inputs yield
exactly the two separate alerts. -/
theorem C4_witness :
    allAlerts 7 [] [c4_phys, c4_cam] [c4_dig] =
      [q2Alert 7 c4_phys c4_dig, q5Alert 7 c4_cam] :=
  (C4_no_dedup_amended 7 c4_phys c4_cam c4_dig (by decide)
    ⟨rfl, rfl, rfl, c4_cam_conf⟩ (by decide)).1

/-- Invalid, alert-flagged scan with threat level `low`: the only alert the
five queries produce for it has score 40, while Query 6 scores its window
at 30. -/
def c5_lowscan : ScanEvent :=
  { event_type := "qr_scan", timestamp := 1000, qr_id := "QR-40",
    is_valid := false, threat_level := "low", reason := "smudged code",
    scan_location := "aisle_9",
    product_info := { product_id := "P-40", name := "Lamp",
                      category := "lighting", value := 100,
                      warehouse_location := "WH1" },
    fraud_indicators := [], alert := true }

/-- C5 counterexample — the ThreatScore row is not an average of the
emitted Alerts' scores: for the window holding only `c5_lowscan`, the
alerts' average score is 40 (Query 1's low bucket) while Query 6 computes
30 (its own `low → 30` CASE over the raw scan events). -/
theorem C5_counterexample :
    specAlertAvgScore (allAlerts 0 [c5_lowscan] [] []) = 40 ∧
    (query6_row "P-40" "Lamp" "aisle_9"
      (tumbleGroup [c5_lowscan] 0 "P-40" "Lamp" "aisle_9")).threat_score = 30 ∧
    (30 : ℚ) ≠ 40 := by
  refine ⟨?_, ?_, by norm_num⟩
  · have h1 : query1_invalid_qr 0 c5_lowscan = some (q1Alert 0 c5_lowscan) := by
      unfold query1_invalid_qr
      exact if_pos (by decide)
    have h4 : query4_unauthorized_exit 0 c5_lowscan = none := by
      unfold query4_unauthorized_exit
      exact if_neg fun hc => absurd hc.2.1 (by decide)
    have hsc : (q1Alert 0 c5_lowscan).threat_score = 40 := by
      simp [q1Alert, c5_lowscan]
    simp [allAlerts, h1, h4, specAlertAvgScore, hsc]
  · have hg : tumbleGroup [c5_lowscan] 0 "P-40" "Lamp" "aisle_9" =
        [c5_lowscan] := by
      decide
    have h30 : threatLevelScore c5_lowscan.threat_level = 30 := by
      simp [threatLevelScore, c5_lowscan]
    rw [hg]
    simp [query6_row, h30]

/-- C5 amended — Query 6 maintains the per-product ThreatScore as a
5-minute tumbling-window aggregate computed directly over the raw QR scan
events (valid and invalid alike): the score is the window average of a
threat-level mapping (critical 95, high 80, medium 60, low 30, else 10) —
not of the emitted Alerts' scores — the risk factors are the deduplicated
scan reasons of the window, and the row is upserted per product id with
latest-per-key semantics. -/
theorem C5_threat_score_amended :
    (∀ (scans : List ScanEvent) (wstart : ℤ) (pid pname loc : String),
      tumbleGroup scans wstart pid pname loc ≠ [] →
      (query6_row pid pname loc
          (tumbleGroup scans wstart pid pname loc)).threat_score =
        ((tumbleGroup scans wstart pid pname loc).map fun e =>
          threatLevelScore e.threat_level).sum /
        (tumbleGroup scans wstart pid pname loc).length ∧
      ((query6_row pid pname loc
          (tumbleGroup scans wstart pid pname loc)).risk_factors).Nodup ∧
      (∀ e ∈ tumbleGroup scans wstart pid pname loc,
        e.reason ∈ (query6_row pid pname loc
          (tumbleGroup scans wstart pid pname loc)).risk_factors)) ∧
    (∀ r1 r2 : ThreatScoreRow, r1.product_id = r2.product_id →
      upsertScoreTable [r1, r2] = [r2]) := by
  constructor
  · intro scans wstart pid pname loc _
    refine ⟨rfl, List.nodup_dedup _, fun e he => ?_⟩
    exact List.mem_dedup.mpr (List.mem_map_of_mem _ he)
  · intro r1 r2 h
    simp [upsertScoreTable, upsertScoreByKey, h]

/-- ThreatScore rows sharing a product id, for the upsert witness. -/
def c5_row1 : ThreatScoreRow :=
  { product_id := "P-40", product_name := "Lamp", location := "aisle_9",
    threat_score := 30, risk_factors := ["smudged code"], last_updated := 1000 }

/-- A later ThreatScore row for the same product. -/
def c5_row2 : ThreatScoreRow :=
  { product_id := "P-40", product_name := "Lamp", location := "aisle_9",
    threat_score := 60, risk_factors := ["smudged code", "worn label"],
    last_updated := 200000 }

/-- Witness for the amended C5: the singleton window has dedup risk factors
containing its reason, and the later row for the same product replaces the
earlier one in the threat-scores sink. -/
theorem C5_witness :
    ((query6_row "P-40" "Lamp" "aisle_9"
      (tumbleGroup [c5_lowscan] 0 "P-40" "Lamp" "aisle_9")).risk_factors).Nodup ∧
    upsertScoreTable [c5_row1, c5_row2] = [c5_row2] :=
  ⟨(C5_threat_score_amended.1 [c5_lowscan] 0 "P-40" "Lamp" "aisle_9"
      (by decide)).2.1,
    C5_threat_score_amended.2 c5_row1 c5_row2 rfl⟩

/-- Invalid, alert-flagged scan used to show the alert id depends on the
processing wall clock. -/
def c6_scan : ScanEvent :=
  { event_type := "qr_scan", timestamp := 60000, qr_id := "QR-77",
    is_valid := false, threat_level := "high", reason := "tampered code",
    scan_location := "aisle_2",
    product_info := { product_id := "P-77", name := "Speaker",
                      category := "audio", value := 250,
                      warehouse_location := "WH1" },
    fraud_indicators := [], alert := true }

/-- Projection helper: an alert's id. -/
def alertIdOf (a : Alert) : String := a.alert_id

/-- C6 counterexample — Query 1's alert id embeds `UNIX_TIMESTAMP()`:
processing the very same scan event at wall-clock seconds 1000 and 1001
yields different alert ids, so the id is not a function of the triggering
event id and rule, and the two runs' alerts do not collapse. -/
theorem C6_counterexample :
    (query1_invalid_qr 1000 c6_scan).map alertIdOf ≠
    (query1_invalid_qr 1001 c6_scan).map alertIdOf := by
  decide

/-- Fraudulent ERP transaction (compromised account), first processing. -/
def c6_d1 : DigitalInventoryEvent :=
  { event_type := "inventory_transaction", product_id := "P-50",
    product_name := "Tablet", category := "electronics", sku := "SKU-5",
    location := "zone_F", quantity_on_hand := 10, quantity_reserved := 0,
    quantity_available := 10, status := "active", warehouse_id := "WH1",
    transaction_id := "TX-500", transaction_type := "adjust",
    quantity_change := -5, new_quantity := 5, user_id := "COMPROMISED_7",
    notes := "first pass", timestamp := 70000 }

/-- The same ERP transaction re-ingested (same transaction id). -/
def c6_d2 : DigitalInventoryEvent :=
  { event_type := "inventory_transaction", product_id := "P-50",
    product_name := "Tablet", category := "electronics", sku := "SKU-5",
    location := "zone_F", quantity_on_hand := 10, quantity_reserved := 0,
    quantity_available := 10, status := "active", warehouse_id := "WH1",
    transaction_id := "TX-500", transaction_type := "adjust",
    quantity_change := -5, new_quantity := 5, user_id := "COMPROMISED_7",
    notes := "second pass", timestamp := 70050 }

/-- C6 amended — only Query 3 derives its alert id deterministically from
the triggering event (USER-FRAUD- plus the transaction id), so reprocessing
the same transaction yields the same id and the upsert sink collapses the
duplicates; Query 1 (like Queries 2, 4 and 5) embeds the wall-clock
processing timestamp in the id, so reprocessing the same event at a
different second yields a distinct, non-collapsing alert id. -/
theorem C6_alert_id_amended :
    (∀ (d : DigitalInventoryEvent) (a : Alert),
      query3_suspicious_user d = some a →
      a.alert_id = "USER-FRAUD-" ++ d.transaction_id) ∧
    (∀ (d1 d2 : DigitalInventoryEvent) (a1 a2 : Alert),
      query3_suspicious_user d1 = some a1 →
      query3_suspicious_user d2 = some a2 →
      d1.transaction_id = d2.transaction_id → a1.alert_id = a2.alert_id) ∧
    (∀ a b : Alert, a.alert_id = b.alert_id → upsertTable [a, b] = [b]) ∧
    (∀ (now : ℤ) (e : ScanEvent) (a : Alert),
      query1_invalid_qr now e = some a →
      a.alert_id = "QR-INVALID-" ++ e.qr_id ++ "-" ++ intStr now) := by
  refine ⟨?_, ?_, upsert_two_same, ?_⟩
  · intro d a ha
    obtain ⟨-, rfl⟩ := query3_eq_some ha
    rfl
  · intro d1 d2 a1 a2 h1 h2 hid
    obtain ⟨-, rfl⟩ := query3_eq_some h1
    obtain ⟨-, rfl⟩ := query3_eq_some h2
    simp [q3Alert, hid]
  · intro now e a ha
    obtain ⟨-, rfl⟩ := query1_eq_some ha
    rfl

/-- Witness for the amended C6: the re-ingested transaction produces the
same alert id and the upsert sink keeps a single record. -/
theorem C6_witness :
    (q3Alert c6_d1).alert_id = "USER-FRAUD-" ++ c6_d1.transaction_id ∧
    upsertTable [q3Alert c6_d1, q3Alert c6_d2] = [q3Alert c6_d2] :=
  ⟨C6_alert_id_amended.1 c6_d1 (q3Alert c6_d1)
      (by unfold query3_suspicious_user
          exact if_pos (by decide)),
    C6_alert_id_amended.2.2.1 (q3Alert c6_d1) (q3Alert c6_d2) rfl⟩

/-- Fraud-marked ERP transaction, first version. -/
def c7_d1 : DigitalInventoryEvent :=
  { event_type := "inventory_transaction", product_id := "P-60",
    product_name := "Phone", category := "electronics", sku := "SKU-6",
    location := "zone_G", quantity_on_hand := 20, quantity_reserved := 0,
    quantity_available := 20, status := "active", warehouse_id := "WH1",
    transaction_id := "TX-900", transaction_type := "fraud_adjust",
    quantity_change := -8, new_quantity := 12, user_id := "user_22",
    notes := "batch A", timestamp := 80000 }

/-- The same transaction id written again with different content. -/
def c7_d2 : DigitalInventoryEvent :=
  { event_type := "inventory_transaction", product_id := "P-60",
    product_name := "Phone", category := "electronics", sku := "SKU-6",
    location := "zone_G", quantity_on_hand := 20, quantity_reserved := 0,
    quantity_available := 20, status := "active", warehouse_id := "WH1",
    transaction_id := "TX-900", transaction_type := "fraud_adjust",
    quantity_change := -8, new_quantity := 12, user_id := "user_22",
    notes := "batch B", timestamp := 80100 }

/-- A fraud-marked transaction with a different transaction id. -/
def c7_d3 : DigitalInventoryEvent :=
  { event_type := "inventory_transaction", product_id := "P-61",
    product_name := "Charger", category := "electronics", sku := "SKU-7",
    location := "zone_G", quantity_on_hand := 30, quantity_reserved := 0,
    quantity_available := 30, status := "active", warehouse_id := "WH1",
    transaction_id := "TX-901", transaction_type := "fraud_adjust",
    quantity_change := -3, new_quantity := 27, user_id := "user_22",
    notes := "batch C", timestamp := 80200 }

/-- C7 counterexample — the fraud-alerts sink is not append-only: writing
two different Query 3 alerts that share an alert id leaves only the later
record in the materialized table; the earlier alert is overwritten. -/
theorem C7_counterexample :
    upsertTable ((query3_suspicious_user c7_d1).toList ++
        (query3_suspicious_user c7_d2).toList) =
      (query3_suspicious_user c7_d2).toList ∧
    query3_suspicious_user c7_d1 ≠ query3_suspicious_user c7_d2 := by
  constructor
  · decide
  · decide

/-- C7 amended — the fraud-alerts table is an upsert sink keyed by alert
id: a later record with the same alert id replaces the earlier one, and
records with distinct alert ids are all retained. -/
theorem C7_upsert_amended :
    ∀ a b : Alert,
      (a.alert_id = b.alert_id → upsertTable [a, b] = [b]) ∧
      (a.alert_id ≠ b.alert_id → upsertTable [a, b] = [a, b]) :=
  fun a b => ⟨upsert_two_same a b, upsert_two_distinct a b⟩

/-- Witness for the amended C7: distinct-id alerts are both kept; same-id
alerts collapse to the later record. -/
theorem C7_witness :
    upsertTable [q3Alert c7_d1, q3Alert c7_d3] =
      [q3Alert c7_d1, q3Alert c7_d3] ∧
    upsertTable [q3Alert c7_d1, q3Alert c7_d2] = [q3Alert c7_d2] :=
  ⟨(C7_upsert_amended (q3Alert c7_d1) (q3Alert c7_d3)).2 (by decide),
    (C7_upsert_amended (q3Alert c7_d1) (q3Alert c7_d2)).1 rfl⟩
